import Mathlib

/-!
Shallow embedding of the BeInformed frontend core logic:

* the client-side Filter & Aggregate Engine of
  `src/frontend/src/pages/TopicDetail.tsx` (`filteredArticles`,
  `availableSources`, `getBiasStats`, `localStats`) and
  `src/frontend/src/components/dashboard/TopicStatistics.tsx`
  (`analysisPercentage`, `getSentimentLabel`, `getBiasLabel`);
* the backend readiness monitor of `hooks/useBackendHealth.ts`
  (`checkHealth`, `startHealthCheck`, the mount `useEffect`,
  `retryHealthCheck`).

Modelling conventions:

* TypeScript `number` fields that hold counts or identifiers become `Nat`
  or `Int`; score fields (floating point in the source) become `ℚ`.
* Nullable fields (`T | null`) become `Option`.
* ISO timestamp strings (`published_at`, `created_at`, ...) are modelled
  by their parsed epoch-millisecond value (`Int`); `new Date(s)` on a
  valid timestamp string is the identity under this encoding, and the
  JavaScript truthiness test on a timestamp string corresponds to
  `Option.isSome` (a syntactically valid timestamp string is non-empty).
* JavaScript truthiness of a nullable string is explicit: `null` and the
  empty string are falsy, every other string is truthy.
-/

/-- Model of `Article` from `src/frontend/src/types/api.ts`.  The untyped
`bias_scores: Record<string, any> | null` field is omitted: it has no
type to translate and no embedded operation reads it. -/
structure Article where
  id : Int
  title : String
  url : String
  description : Option String
  content : Option String
  author : Option String
  published_at : Option Int
  image_url : Option String
  source_id : Option Int
  source_name : Option String
  credibility_score : Option ℚ
  sentiment_score : Option ℚ
  sentiment_label : Option String
  sentiment_confidence : Option ℚ
  political_bias_score : Option ℚ
  political_bias_label : Option String
  sensationalism_score : Option ℚ
  sensationalism_label : Option String
  created_at : Int
  updated_at : Option Int
  last_analyzed_at : Option Int
deriving Repr, DecidableEq

/-- Model of `ArticleList` from `src/frontend/src/types/api.ts` (pagination
envelope returned by `GET /topics/{id}/articles`). -/
structure ArticleList where
  items : List Article
  total : Nat
  page : Nat
  size : Nat
  pages : Nat
deriving Repr, DecidableEq

/-- The `dateRange` field of the filter state in `TopicDetail.tsx` is the
string `'all'` or a decimal numeral (`'7'`, `'30'`, `'90'` in
`ArticleFilters`); `parseInt` of the numeral is modelled by the `Nat`
payload of `lastDays`. -/
inductive DateRange where
  | all : DateRange
  | lastDays (n : Nat) : DateRange
deriving Repr, DecidableEq

/-- The filter state held by `TopicDetail.tsx` (called `FilterCriteria`
in the design document): selected sentiment labels, bias labels, source
names, and a date range. -/
structure FilterCriteria where
  sentiment : List String
  bias : List String
  sources : List String
  dateRange : DateRange
deriving Repr, DecidableEq

/-- One set-valued filter dimension of `filteredArticles`
(`TopicDetail.tsx` lines 92-111).  The source pattern is

`if (sel.length > 0 && article.label) { if (!sel.includes(article.label)) return false; }`

so the article is rejected exactly when the selection is non-empty, the
label is truthy (non-null and non-empty), and the label is not in the
selection.  A null or empty-string label always passes. -/
def dimPass (sel : List String) (label : Option String) : Bool :=
  match label with
  | some s => if sel.length > 0 && !(s == "") then sel.contains s else true
  | none => true

/-- The date dimension of `filteredArticles` (`TopicDetail.tsx` lines
113-123).  `cutoffDate = now.setDate(now.getDate() - daysAgo)` is
modelled as `now - n * 86400000` milliseconds (calendar-day arithmetic
abstracted to fixed-length days), and the article is rejected exactly
when `publishDate < cutoffDate`.  A null timestamp always passes. -/
def datePass (now : Int) (dr : DateRange) (pub : Option Int) : Bool :=
  match dr, pub with
  | DateRange.all, _ => true
  | DateRange.lastDays _, none => true
  | DateRange.lastDays n, some t => !(t < now - (n : Int) * 86400000)

/-- Model of `filteredArticles` from `TopicDetail.tsx` lines 88-127: keep the
articles that pass all four dimensions (sentiment, bias, source, date,
checked in source order). -/
def applyFilters (now : Int) (items : List Article) (f : FilterCriteria) : List Article :=
  items.filter fun a =>
    dimPass f.sentiment a.sentiment_label &&
    dimPass f.bias a.political_bias_label &&
    dimPass f.sources a.source_name &&
    datePass now f.dateRange a.published_at

/-- Model of `articleList.items.map(a => a.source_name).filter(Boolean)` from
`TopicDetail.tsx` (used at lines 80-82 and 370): the source names that
are non-null and non-empty, in input order. -/
def sourcesOf (items : List Article) : List String :=
  (items.map fun a => a.source_name).filterMap fun o =>
    match o with
    | some s => if s == "" then none else some s
    | none => none

/-- Model of `Array.from(new Set(l))`: deduplication keeping the first occurrence
of each element, in insertion order (JavaScript `Set` iteration order). -/
def jsSetDedup.go : List String → List String → List String
  | [], _ => []
  | x :: xs, seen => if x ∈ seen then jsSetDedup.go xs seen else x :: jsSetDedup.go xs (x :: seen)

/-- Model of `Array.from(new Set(l))` with an empty set of already-seen values. -/
def jsSetDedup (l : List String) : List String :=
  jsSetDedup.go l []

/-- Model of `availableSources` from `TopicDetail.tsx` lines 77-85:
`Array.from(new Set(items.map(a => a.source_name).filter(Boolean))).sort()`.
The default `Array.prototype.sort` on strings is lexicographic; it is
modelled by insertion sort under `String.le`. -/
def deriveAvailableSources (items : List Article) : List String :=
  List.insertionSort (· ≤ ·) (jsSetDedup (sourcesOf items))

/-- Model of `sentimentDistribution` sub-object of `TopicStatsData`
(`TopicStatistics.tsx` lines 8-12). -/
structure SentimentDistribution where
  positive : Nat
  neutral : Nat
  negative : Nat
deriving Repr, DecidableEq

/-- Model of `biasDistribution` sub-object of `TopicStatsData`
(`TopicStatistics.tsx` lines 13-17). -/
structure BiasDistribution where
  leftLeaning : Nat
  centrist : Nat
  rightLeaning : Nat
deriving Repr, DecidableEq

/-- Model of `TopicStatsData` from `TopicStatistics.tsx` lines 4-21.  Count
fields are `Nat`; the score fields (floats in the source) are `ℚ`. -/
structure TopicStatsData where
  totalArticles : Nat
  analyzedArticles : Nat
  averageSentiment : ℚ
  sentimentDistribution : SentimentDistribution
  biasDistribution : BiasDistribution
  sourcesCount : Nat
  sensationalismLevel : ℚ
  timeRange : String
deriving Repr, DecidableEq

/-- Model of `localStats` from `TopicDetail.tsx` lines 356-373: the aggregate
computed directly from the current page of articles.  The JavaScript
truthiness test on `last_analyzed_at` (a timestamp string or null) is
`Option.isSome` under the timestamp encoding. -/
def localStats (articleList : ArticleList) : TopicStatsData :=
  { totalArticles := articleList.total
    analyzedArticles := (articleList.items.filter fun a => a.last_analyzed_at.isSome).length
    averageSentiment := 0
    sentimentDistribution :=
      { positive := (articleList.items.filter fun a => a.sentiment_label == some "positive").length
        neutral := (articleList.items.filter fun a => a.sentiment_label == some "neutral").length
        negative := (articleList.items.filter fun a => a.sentiment_label == some "negative").length }
    biasDistribution :=
      { leftLeaning := (articleList.items.filter fun a => a.political_bias_label == some "left-leaning").length
        centrist := (articleList.items.filter fun a =>
          a.political_bias_label == some "centrist" || a.political_bias_label == some "neutral").length
        rightLeaning := (articleList.items.filter fun a => a.political_bias_label == some "right-leaning").length }
    sourcesCount := (jsSetDedup (sourcesOf articleList.items)).length
    sensationalismLevel := 0
    timeRange := "current page" }

/-- Model of `political` sub-object of the `getBiasStats` result
(`TopicDetail.tsx` line 322). -/
structure PoliticalCounts where
  leftLeaning : Nat
  rightLeaning : Nat
  centrist : Nat
deriving Repr, DecidableEq

/-- Model of `sensationalism` sub-object of the `getBiasStats` result
(`TopicDetail.tsx` line 323). -/
structure SensationalismCounts where
  factual : Nat
  somewhatSensational : Nat
  highlySensational : Nat
deriving Repr, DecidableEq

/-- Result object of `getBiasStats` (`TopicDetail.tsx` lines 320-324). -/
structure BiasStats where
  analyzed : Nat
  political : PoliticalCounts
  sensationalism : SensationalismCounts
deriving Repr, DecidableEq

/-- Model of `getBiasStats` from `TopicDetail.tsx` lines 304-325: returns `null`
when the page is empty or no article is analyzed, otherwise per-label
counts over the analyzed articles; `neutral` is counted into the
centrist bucket. -/
def getBiasStats (articleList : ArticleList) : Option BiasStats :=
  if articleList.items.length = 0 then none
  else
    let analyzed := articleList.items.filter fun a => a.last_analyzed_at.isSome
    if analyzed.length = 0 then none
    else some
      { analyzed := analyzed.length
        political :=
          { leftLeaning := (analyzed.filter fun a => a.political_bias_label == some "left-leaning").length
            rightLeaning := (analyzed.filter fun a => a.political_bias_label == some "right-leaning").length
            centrist := (analyzed.filter fun a =>
              a.political_bias_label == some "centrist" || a.political_bias_label == some "neutral").length }
        sensationalism :=
          { factual := (analyzed.filter fun a => a.sensationalism_label == some "factual").length
            somewhatSensational := (analyzed.filter fun a => a.sensationalism_label == some "somewhat sensational").length
            highlySensational := (analyzed.filter fun a => a.sensationalism_label == some "highly sensational").length } }

/-- JavaScript `Math.round` on the (non-negative, in our uses) rational
`x`: round half away from zero is `⌊x + 1/2⌋` for `x ≥ 0`, the case
exercised by `analysisPercentage`. -/
def jsRound (x : ℚ) : Int :=
  Int.floor (x + 1/2)

/-- Model of `analysisPercentage` from `TopicStatistics.tsx` lines 58-61:
`totalArticles > 0 ? Math.round(analyzed / total * 100) : 0`. -/
def analysisPercentage (stats : TopicStatsData) : Int :=
  if stats.totalArticles > 0 then
    jsRound ((stats.analyzedArticles : ℚ) / (stats.totalArticles : ℚ) * 100)
  else 0

/-- Model of `getSentimentLabel` from `TopicStatistics.tsx` lines 64-69.  The
`score === undefined || isNaN(score)` guard concerns floating-point
values that do not exist in the `ℚ` model; the remaining guard is
`analyzedArticles === 0`. -/
def getSentimentLabel (analyzedArticles : Nat) (score : ℚ) : String :=
  if analyzedArticles = 0 then "Unknown"
  else if score > 3/10 then "Mostly Positive"
  else if score < -(3/10) then "Mostly Negative"
  else "Neutral"

/-- Model of `getBiasLabel` from `TopicStatistics.tsx` lines 72-86 (the `|| 0`
defaults only guard undefined fields, which cannot arise in the typed
model). -/
def getBiasLabel (analyzedArticles : Nat) (bd : BiasDistribution) : String :=
  let total := bd.leftLeaning + bd.centrist + bd.rightLeaning
  if total = 0 ∨ analyzedArticles = 0 then "Unknown"
  else
    let leftPercent := (bd.leftLeaning : ℚ) / (total : ℚ) * 100
    let rightPercent := (bd.rightLeaning : ℚ) / (total : ℚ) * 100
    let centristPercent := (bd.centrist : ℚ) / (total : ℚ) * 100
    if centristPercent > 60 then "Mostly Centrist"
    else if leftPercent > rightPercent + 20 then "Left-Leaning"
    else if rightPercent > leftPercent + 20 then "Right-Leaning"
    else "Mixed Perspectives"

/-- Model of `HealthStatus` from `hooks/useBackendHealth.ts` lines 56-62. -/
structure HealthStatus where
  isHealthy : Bool
  isChecking : Bool
  isSpinningUp : Bool
  retryCount : Nat
  message : String
deriving Repr, DecidableEq

/-- Model of `maxRetries = 40` (`useBackendHealth.ts` line 74). -/
def maxRetries : Nat := 40

/-- Per-probe timeout of `checkHealth`: `setTimeout(() => controller.abort(), 10000)`
(`useBackendHealth.ts` line 79), in milliseconds. -/
def checkHealthTimeoutMs : Nat := 10000

/-- Inter-probe delay: `setInterval(performCheck, 5000)`
(`useBackendHealth.ts` line 148), in milliseconds. -/
def healthCheckIntervalMs : Nat := 5000

/-- Terminal failure message (`useBackendHealth.ts` line 127). -/
def unavailableMessage : String := "Backend appears to be unavailable. Please try again later."

/-- Spinning-up message (`useBackendHealth.ts` lines 124-125), with
`Math.ceil((maxRetries - newRetryCount) * 5 / 60)` estimated minutes. -/
def spinningUpMessage (newRetryCount : Nat) : String :=
  let estimatedMinutes : Int := Int.ceil ((((maxRetries : ℚ) - (newRetryCount : ℚ)) * 5) / 60)
  "Backend is starting up... Estimated wait: " ++ toString estimatedMinutes ++ " minute(s)"

/-- The `setStatus` updater inside `performCheck`
(`useBackendHealth.ts` lines 102-141), as a pure function of the probe
outcome and the previous status.  The second component records whether
the updater called `clearInterval` (stopping the polling cycle). -/
def performCheckUpdate (healthyResult : Bool) (prev : HealthStatus) : HealthStatus × Bool :=
  let newRetryCount := prev.retryCount + 1
  if healthyResult then
    ({ isHealthy := true, isChecking := false, isSpinningUp := false,
       retryCount := newRetryCount, message := "Backend is ready!" }, true)
  else
    let isSpinningUp := decide (newRetryCount > 2) && decide (newRetryCount < maxRetries)
    let message :=
      if isSpinningUp then spinningUpMessage newRetryCount
      else if newRetryCount ≥ maxRetries then unavailableMessage
      else "Checking backend status..."
    ({ isHealthy := false, isChecking := decide (newRetryCount < maxRetries),
       isSpinningUp := isSpinningUp, retryCount := newRetryCount, message := message },
     decide (newRetryCount ≥ maxRetries))

/-- Monitor state: the hook's `status` plus whether `intervalRef`
currently holds a live interval (i.e. probes are still scheduled). -/
structure MonitorState where
  status : HealthStatus
  intervalActive : Bool
deriving Repr, DecidableEq

/-- Events driving the monitor: a scheduled probe completing with a
result (`performCheck`), or the user invoking `retryHealthCheck`. -/
inductive MonitorEvent where
  | probeResult (healthy : Bool) : MonitorEvent
  | manualRetry : MonitorEvent
deriving Repr, DecidableEq

/-- The status set synchronously by `retryHealthCheck`
(`useBackendHealth.ts` lines 192-198), to which `startHealthCheck`
immediately re-applies `isChecking := true` (line 97). -/
def retryResetStatus : HealthStatus :=
  { isHealthy := false, isChecking := true, isSpinningUp := false,
    retryCount := 0, message := "Checking backend status..." }

/-- One step of the readiness monitor.  A scheduled probe can only fire
while the interval is live (after `clearInterval` no further probes are
scheduled); `manualRetry` resets the status and restarts the polling
cycle (`retryHealthCheck` followed by the synchronous part of
`startHealthCheck`, which re-arms the interval). -/
def monitorStep (s : MonitorState) : MonitorEvent → Option MonitorState
  | MonitorEvent.probeResult h =>
      if s.intervalActive then
        let r := performCheckUpdate h s.status
        some { status := r.1, intervalActive := s.intervalActive && !r.2 }
      else none
  | MonitorEvent.manualRetry =>
      some { status := retryResetStatus, intervalActive := true }

/-- Run the monitor over a list of events; an event that is not enabled
(a probe while no interval is live) leaves the state unchanged. -/
def monitorRun (s : MonitorState) : List MonitorEvent → MonitorState
  | [] => s
  | e :: es => monitorRun ((monitorStep s e).getD s) es

/-- Model of `ReadinessState` of the design document, derived from the hook's
boolean fields: `healthy` when `isHealthy`, otherwise `starting-up` or
`checking` while still polling, otherwise `unavailable`. -/
inductive ReadinessState where
  | checking : ReadinessState
  | healthy : ReadinessState
  | startingUp : ReadinessState
  | unavailable : ReadinessState
deriving Repr, DecidableEq

/-- Map a `HealthStatus` onto the design document's `ReadinessState`. -/
def readinessStateOf (st : HealthStatus) : ReadinessState :=
  if st.isHealthy then ReadinessState.healthy
  else if st.isChecking then
    (if st.isSpinningUp then ReadinessState.startingUp else ReadinessState.checking)
  else ReadinessState.unavailable

/-- Observable effects of running one of the hook's initialization
paths: the status it sets, how many probe requests it issues
synchronously, and which timers it arms. -/
structure MountResult where
  status : HealthStatus
  probesIssued : Nat
  fallbackTimerSet : Bool
  fallbackDelayMs : Nat
deriving Repr, DecidableEq

/-- The mount `useEffect` of `useBackendHealth`
(`useBackendHealth.ts` lines 152-189).  In local mode (`!isProduction`)
it reports healthy immediately and arms nothing.  In production mode it
sets a spinning-up status and arms only the one-shot 65000 ms fallback
timer; it never calls `checkHealth` or `startHealthCheck`, so no probe
is issued. -/
def mountEffect (isProduction : Bool) : MountResult :=
  if !isProduction then
    { status := { isHealthy := true, isChecking := false, isSpinningUp := false,
                  retryCount := 0, message := "Ready" }
      probesIssued := 0
      fallbackTimerSet := false
      fallbackDelayMs := 0 }
  else
    { status := { isHealthy := false, isChecking := true, isSpinningUp := true,
                  retryCount := 0,
                  message := "Backend is starting up... Estimated wait: 1 min 30 seconds maximum as I am hosting backend on free render plan which spins down with inactivity!" }
      probesIssued := 0
      fallbackTimerSet := true
      fallbackDelayMs := 65000 }

/-- The status installed when the fallback timer fires
(`useBackendHealth.ts` lines 178-186): healthy, unconditionally. -/
def fallbackFireStatus : HealthStatus :=
  { isHealthy := true, isChecking := false, isSpinningUp := false,
    retryCount := 0, message := "Backend should be ready now" }

/-- The mount effect's cleanup (`useBackendHealth.ts` line 188):
`clearTimeout(timer)` cancels the fallback timer. -/
def mountCleanup (m : MountResult) : MountResult :=
  { m with fallbackTimerSet := false }

/-- Observable synchronous effects of `startHealthCheck`
(`useBackendHealth.ts` lines 96-149): it performs one immediate probe
(`performCheck()` at line 145, a `checkHealth` call bounded by the
10000 ms abort timeout) and arms the 5000 ms polling interval. -/
structure StartResult where
  probesIssued : Nat
  probeTimeoutMs : Nat
  intervalDelayMs : Nat
  intervalSet : Bool
deriving Repr, DecidableEq

/-- The effects `startHealthCheck` produces synchronously. -/
def startHealthCheckEffects : StartResult :=
  { probesIssued := 1
    probeTimeoutMs := checkHealthTimeoutMs
    intervalDelayMs := healthCheckIntervalMs
    intervalSet := true }

/-- A concrete article template for counterexamples and witnesses: only
the fields the embedded operations read are varied. -/
def mkArticle (sentiment bias src : Option String) (pub lastAnalyzed : Option Int) : Article :=
  { id := 1, title := "t", url := "u", description := none, content := none,
    author := none, published_at := pub, image_url := none, source_id := none,
    source_name := src, credibility_score := none, sentiment_score := none,
    sentiment_label := sentiment, sentiment_confidence := none,
    political_bias_score := none, political_bias_label := bias,
    sensationalism_score := none, sensationalism_label := none,
    created_at := 0, updated_at := none, last_analyzed_at := lastAnalyzed }

theorem mem_jsSetDedup_go (l : List String) :
    ∀ (seen : List String) (x : String), x ∈ jsSetDedup.go l seen ↔ x ∈ l ∧ x ∉ seen := by
  induction l with
  | nil => intro seen x; simp [jsSetDedup.go]
  | cons y ys ih =>
    intro seen x
    by_cases hy : y ∈ seen
    · rw [jsSetDedup.go, if_pos hy, ih]
      constructor
      · rintro ⟨hx, hs⟩
        exact ⟨List.mem_cons_of_mem _ hx, hs⟩
      · rintro ⟨hx, hs⟩
        rcases List.mem_cons.mp hx with h | h
        · exact absurd (h ▸ hy) hs
        · exact ⟨h, hs⟩
    · rw [jsSetDedup.go, if_neg hy]
      simp only [List.mem_cons, ih]
      constructor
      · rintro (rfl | ⟨hx, hs⟩)
        · exact ⟨Or.inl rfl, hy⟩
        · exact ⟨Or.inr hx, fun hc => hs (Or.inr hc)⟩
      · rintro ⟨rfl | hx, hs⟩
        · exact Or.inl rfl
        · by_cases hxy : x = y
          · exact Or.inl hxy
          · exact Or.inr ⟨hx, fun hc => hc.elim hxy hs⟩

theorem nodup_jsSetDedup_go (l : List String) :
    ∀ seen : List String, (jsSetDedup.go l seen).Nodup := by
  induction l with
  | nil => intro seen; simp [jsSetDedup.go]
  | cons y ys ih =>
    intro seen
    by_cases hy : y ∈ seen
    · rw [jsSetDedup.go, if_pos hy]; exact ih seen
    · rw [jsSetDedup.go, if_neg hy]
      refine List.nodup_cons.mpr ⟨fun hmem => ?_, ih _⟩
      exact ((mem_jsSetDedup_go ys (y :: seen) y).mp hmem).2 (List.mem_cons_self _ _)

theorem mem_jsSetDedup (l : List String) (x : String) : x ∈ jsSetDedup l ↔ x ∈ l := by
  simpa using mem_jsSetDedup_go l [] x

theorem nodup_jsSetDedup (l : List String) : (jsSetDedup l).Nodup :=
  nodup_jsSetDedup_go l []

theorem mem_sourcesOf (items : List Article) (s : String) :
    s ∈ sourcesOf items ↔ s ≠ "" ∧ ∃ a ∈ items, a.source_name = some s := by
  unfold sourcesOf
  rw [List.mem_filterMap]
  constructor
  · rintro ⟨o, ho, hos⟩
    rcases List.mem_map.mp ho with ⟨a, ha, rfl⟩
    cases hsn : a.source_name with
    | none => rw [hsn] at hos; simp at hos
    | some t =>
      rw [hsn] at hos
      by_cases ht : t = ""
      · subst ht; simp at hos
      · simp [ht] at hos
        exact ⟨hos ▸ ht, a, ha, by rw [hsn, hos]⟩
  · rintro ⟨hs, a, ha, hsn⟩
    exact ⟨some s, List.mem_map.mpr ⟨a, ha, hsn⟩, by simp [hs]⟩

theorem dimPass_nil (label : Option String) : dimPass [] label = true := by
  cases label <;> simp [dimPass]

theorem dimPass_eq_true_iff (sel : List String) (label : Option String) :
    dimPass sel label = true ↔
      sel = [] ∨ label = none ∨ label = some "" ∨ ∃ s, label = some s ∧ s ∈ sel := by
  cases label with
  | none => simp [dimPass]
  | some s =>
    by_cases hsel : sel = []
    · subst hsel; simp [dimPass_nil]
    · by_cases hs : s = ""
      · subst hs; simp [dimPass]
      · have hlen : 0 < sel.length := List.length_pos.mpr hsel
        simp [dimPass, hs, hlen, hsel]

theorem datePass_eq_true_iff (now : Int) (dr : DateRange) (pub : Option Int) :
    datePass now dr pub = true ↔
      dr = DateRange.all ∨ pub = none ∨
        ∃ t n, pub = some t ∧ dr = DateRange.lastDays n ∧ now - (n : Int) * 86400000 ≤ t := by
  cases dr with
  | all => simp [datePass]
  | lastDays n =>
    cases pub with
    | none => simp [datePass]
    | some t => simp [datePass, Int.not_lt]

theorem mem_applyFilters (now : Int) (items : List Article) (f : FilterCriteria) (a : Article) :
    a ∈ applyFilters now items f ↔
      a ∈ items ∧
      (f.sentiment = [] ∨ a.sentiment_label = none ∨ a.sentiment_label = some "" ∨
        ∃ s, a.sentiment_label = some s ∧ s ∈ f.sentiment) ∧
      (f.bias = [] ∨ a.political_bias_label = none ∨ a.political_bias_label = some "" ∨
        ∃ s, a.political_bias_label = some s ∧ s ∈ f.bias) ∧
      (f.sources = [] ∨ a.source_name = none ∨ a.source_name = some "" ∨
        ∃ s, a.source_name = some s ∧ s ∈ f.sources) ∧
      (f.dateRange = DateRange.all ∨ a.published_at = none ∨
        ∃ t n, a.published_at = some t ∧ f.dateRange = DateRange.lastDays n ∧
          now - (n : Int) * 86400000 ≤ t) := by
  unfold applyFilters
  rw [List.mem_filter, Bool.and_eq_true, Bool.and_eq_true, Bool.and_eq_true,
    dimPass_eq_true_iff, dimPass_eq_true_iff, dimPass_eq_true_iff, datePass_eq_true_iff,
    and_assoc, and_assoc]

theorem length_filter_or_disjoint (l : List Article) (p q : Article → Bool)
    (hdisj : ∀ a, ¬(p a = true ∧ q a = true)) :
    (l.filter fun a => p a || q a).length = (l.filter p).length + (l.filter q).length := by
  induction l with
  | nil => simp
  | cons a as ih =>
    cases hp : p a with
    | true =>
      have hq : q a = false := by
        cases hqa : q a
        · rfl
        · exact absurd ⟨hp, hqa⟩ (hdisj a)
      simp [List.filter_cons, hp, hq, ih]
      omega
    | false =>
      cases hqa : q a with
      | true =>
        simp [List.filter_cons, hp, hqa, ih]
        omega
      | false => simp [List.filter_cons, hp, hqa, ih]

theorem monitorRun_no_retry (s : MonitorState) (hs : s.intervalActive = false) :
    ∀ evs : List MonitorEvent, MonitorEvent.manualRetry ∉ evs → monitorRun s evs = s := by
  intro evs
  induction evs with
  | nil => intro _; rfl
  | cons e es ih =>
    intro h
    cases e with
    | probeResult b =>
      rw [monitorRun]
      have hnone : monitorStep s (MonitorEvent.probeResult b) = none := by
        simp [monitorStep, hs]
      rw [hnone]
      exact ih fun hm => h (List.mem_cons_of_mem _ hm)
    | manualRetry => exact absurd (List.mem_cons_self _ _) h

/-- C1 (amended).  Every article in the output of `applyFilters` is an
input article that, on each dimension with a non-empty selection, either
has a falsy (null or empty-string) label or a label in the selection set;
conversely all such articles are kept.  In particular an article with a
null sentiment label is never excluded by the sentiment dimension, even
when `criteria.sentiment` is non-empty. -/
theorem applyFilters_inclusion_characterization (now : Int) (items : List Article)
    (f : FilterCriteria) (a : Article) :
    a ∈ applyFilters now items f ↔
      a ∈ items ∧
      (f.sentiment = [] ∨ a.sentiment_label = none ∨ a.sentiment_label = some "" ∨
        ∃ s, a.sentiment_label = some s ∧ s ∈ f.sentiment) ∧
      (f.bias = [] ∨ a.political_bias_label = none ∨ a.political_bias_label = some "" ∨
        ∃ s, a.political_bias_label = some s ∧ s ∈ f.bias) ∧
      (f.sources = [] ∨ a.source_name = none ∨ a.source_name = some "" ∨
        ∃ s, a.source_name = some s ∧ s ∈ f.sources) ∧
      (f.dateRange = DateRange.all ∨ a.published_at = none ∨
        ∃ t n, a.published_at = some t ∧ f.dateRange = DateRange.lastDays n ∧
          now - (n : Int) * 86400000 ≤ t) :=
  mem_applyFilters now items f a

/-- C1 counterexample.  With the non-empty selection
`criteria.sentiment = ["positive"]`, the article whose sentiment label is
null still appears in the output of `applyFilters`, contradicting the
claim that it never appears. -/
theorem applyFilters_null_sentiment_passes :
    mkArticle none none none none none ∈
      applyFilters 0 [mkArticle none none none none none]
        { sentiment := ["positive"], bias := [], sources := [], dateRange := DateRange.all } := by
  decide

/-- C2 (amended).  With the date range restricted to the last `n` days,
an article is kept by `applyFilters` (all other dimensions unrestricted)
iff its published timestamp is null or at least `now - n` days; there is
no upper bound at `now`, and a null timestamp passes rather than being
excluded.  With the unrestricted range the date dimension always
passes. -/
theorem applyFilters_date_dimension (now : Int) (items : List Article) (n : Nat) (a : Article) :
    (a ∈ applyFilters now items
        { sentiment := [], bias := [], sources := [], dateRange := DateRange.lastDays n } ↔
      a ∈ items ∧ (a.published_at = none ∨
        ∃ t, a.published_at = some t ∧ now - (n : Int) * 86400000 ≤ t)) ∧
    (a ∈ applyFilters now items
        { sentiment := [], bias := [], sources := [], dateRange := DateRange.all } ↔
      a ∈ items) := by
  constructor
  · rw [mem_applyFilters]
    simp
  · rw [mem_applyFilters]
    simp

/-- C2 counterexample.  Under the restricted range "last 7 days" (with
`now = 0`), an article with a null published timestamp is in the output,
and so is an article whose timestamp lies in the future, strictly after
`now`; the claim requires a non-null timestamp inside
`[now - 7 days, now]`. -/
theorem applyFilters_null_date_passes :
    (mkArticle none none none none none ∈
      applyFilters 0 [mkArticle none none none none none]
        { sentiment := [], bias := [], sources := [], dateRange := DateRange.lastDays 7 }) ∧
    (mkArticle none none none (some 999999999999) none ∈
      applyFilters 0 [mkArticle none none none (some 999999999999) none]
        { sentiment := [], bias := [], sources := [], dateRange := DateRange.lastDays 7 }) ∧
    (999999999999 : Int) > 0 := by
  refine ⟨by decide, by decide, by decide⟩

/-- C9.  `applyFilters` with every dimension empty/unrestricted is the
identity on the article list. -/
theorem applyFilters_identity_on_unrestricted (now : Int) (items : List Article) :
    applyFilters now items
      { sentiment := [], bias := [], sources := [], dateRange := DateRange.all } = items := by
  unfold applyFilters
  rw [List.filter_eq_self]
  intro a _
  simp [dimPass_nil, datePass]

/-- C8 (amended).  `deriveAvailableSources` returns the distinct
non-null, non-empty source names sorted ascending: no duplicates, sorted
under the string order, containing exactly the non-empty names occurring
in the input, and empty input yields empty output.  (The JavaScript
`filter(Boolean)` also drops the empty string, which is non-null; hence
"non-empty" is added to the claim.) -/
theorem deriveAvailableSources_sorted_nodup (items : List Article) :
    (deriveAvailableSources items).Nodup ∧
    List.Sorted (· ≤ ·) (deriveAvailableSources items) ∧
    (∀ s : String, s ∈ deriveAvailableSources items ↔
      s ≠ "" ∧ ∃ a ∈ items, a.source_name = some s) ∧
    deriveAvailableSources [] = [] := by
  have hperm := List.perm_insertionSort (α := String) (· ≤ ·) (jsSetDedup (sourcesOf items))
  refine ⟨hperm.nodup_iff.mpr (nodup_jsSetDedup _), List.sorted_insertionSort _ _, ?_, rfl⟩
  intro s
  rw [deriveAvailableSources, hperm.mem_iff, mem_jsSetDedup, mem_sourcesOf]

/-- C8 counterexample.  The empty string is a non-null source name, yet
an article carrying it contributes nothing to `deriveAvailableSources`:
the output omits a non-null source name occurring in the input. -/
theorem deriveAvailableSources_empty_name :
    deriveAvailableSources [mkArticle none none (some "") none none] = [] ∧
    (mkArticle none none (some "") none none).source_name = some "" :=
  ⟨rfl, rfl⟩

/-- Model of `total` inside `getBiasLabel` (`TopicStatistics.tsx` line 74). -/
def biasTotal (bd : BiasDistribution) : Nat :=
  bd.leftLeaning + bd.centrist + bd.rightLeaning

/-- Model of `leftPercent` inside `getBiasLabel` (`TopicStatistics.tsx` line 78). -/
def leftSharePercent (bd : BiasDistribution) : ℚ :=
  (bd.leftLeaning : ℚ) / (biasTotal bd : ℚ) * 100

/-- Model of `rightPercent` inside `getBiasLabel` (`TopicStatistics.tsx` line 79). -/
def rightSharePercent (bd : BiasDistribution) : ℚ :=
  (bd.rightLeaning : ℚ) / (biasTotal bd : ℚ) * 100

/-- Model of `centristPercent` inside `getBiasLabel` (`TopicStatistics.tsx` line 80). -/
def centristSharePercent (bd : BiasDistribution) : ℚ :=
  (bd.centrist : ℚ) / (biasTotal bd : ℚ) * 100


theorem getBiasLabel_eq (n : Nat) (bd : BiasDistribution) :
    getBiasLabel n bd =
      if biasTotal bd = 0 ∨ n = 0 then "Unknown"
      else if 60 < centristSharePercent bd then "Mostly Centrist"
      else if rightSharePercent bd + 20 < leftSharePercent bd then "Left-Leaning"
      else if leftSharePercent bd + 20 < rightSharePercent bd then "Right-Leaning"
      else "Mixed Perspectives" := rfl

/-- C5 (amended).  The summary labels follow exactly the claimed
thresholds once the guard cases are added: with zero analyzed articles
(either function) or a zero bias-count total (`getBiasLabel`) the label
is "Unknown"; otherwise sentiment score above 3/10 gives the mostly
positive label, below -3/10 the mostly negative label, else neutral, and
bias gives mostly centrist above a 60% centrist share, the left or right
label when that side's share exceeds the other by more than 20
percentage points, else the mixed label. -/
theorem summary_label_thresholds (n : Nat) (score : ℚ) (bd : BiasDistribution) :
    (getSentimentLabel 0 score = "Unknown") ∧
    (0 < n → 3/10 < score → getSentimentLabel n score = "Mostly Positive") ∧
    (0 < n → score < -(3/10) → getSentimentLabel n score = "Mostly Negative") ∧
    (0 < n → -(3/10) ≤ score → score ≤ 3/10 → getSentimentLabel n score = "Neutral") ∧
    (getBiasLabel 0 bd = "Unknown") ∧
    (biasTotal bd = 0 → getBiasLabel n bd = "Unknown") ∧
    (0 < n → 0 < biasTotal bd → 60 < centristSharePercent bd →
      getBiasLabel n bd = "Mostly Centrist") ∧
    (0 < n → 0 < biasTotal bd → centristSharePercent bd ≤ 60 →
      rightSharePercent bd + 20 < leftSharePercent bd → getBiasLabel n bd = "Left-Leaning") ∧
    (0 < n → 0 < biasTotal bd → centristSharePercent bd ≤ 60 →
      leftSharePercent bd + 20 < rightSharePercent bd → getBiasLabel n bd = "Right-Leaning") ∧
    (0 < n → 0 < biasTotal bd → centristSharePercent bd ≤ 60 →
      leftSharePercent bd ≤ rightSharePercent bd + 20 →
      rightSharePercent bd ≤ leftSharePercent bd + 20 →
      getBiasLabel n bd = "Mixed Perspectives") := by
  refine ⟨by simp [getSentimentLabel], ?_, ?_, ?_, by rw [getBiasLabel_eq, if_pos (Or.inr rfl)],
    ?_, ?_, ?_, ?_, ?_⟩
  · intro hn hsc
    unfold getSentimentLabel
    rw [if_neg (Nat.pos_iff_ne_zero.mp hn), if_pos hsc]
  · intro hn hsc
    have hle : ¬ 3/10 < score := by
      apply not_lt.mpr
      linarith
    unfold getSentimentLabel
    rw [if_neg (Nat.pos_iff_ne_zero.mp hn), if_neg hle, if_pos hsc]
  · intro hn hlo hhi
    unfold getSentimentLabel
    rw [if_neg (Nat.pos_iff_ne_zero.mp hn), if_neg (not_lt.mpr hhi),
      if_neg (not_lt.mpr hlo)]
  · intro htot
    rw [getBiasLabel_eq, if_pos (Or.inl htot)]
  · intro hn htot hc
    rw [getBiasLabel_eq,
      if_neg (by push_neg; exact ⟨Nat.pos_iff_ne_zero.mp htot, Nat.pos_iff_ne_zero.mp hn⟩),
      if_pos hc]
  · intro hn htot hc hl
    rw [getBiasLabel_eq,
      if_neg (by push_neg; exact ⟨Nat.pos_iff_ne_zero.mp htot, Nat.pos_iff_ne_zero.mp hn⟩),
      if_neg (not_lt.mpr hc), if_pos hl]
  · intro hn htot hc hr
    have hnl : ¬ rightSharePercent bd + 20 < leftSharePercent bd := by
      apply not_lt.mpr
      linarith
    rw [getBiasLabel_eq,
      if_neg (by push_neg; exact ⟨Nat.pos_iff_ne_zero.mp htot, Nat.pos_iff_ne_zero.mp hn⟩),
      if_neg (not_lt.mpr hc), if_neg hnl, if_pos hr]
  · intro hn htot hc hl hr
    rw [getBiasLabel_eq,
      if_neg (by push_neg; exact ⟨Nat.pos_iff_ne_zero.mp htot, Nat.pos_iff_ne_zero.mp hn⟩),
      if_neg (not_lt.mpr hc), if_neg (not_lt.mpr hl), if_neg (not_lt.mpr hr)]

/-- C5 counterexample.  With zero analyzed articles the labels are
"Unknown", not the threshold labels the claim derives: a sentiment score
of 1/2 exceeds 0.3 yet does not yield the mostly positive label, and a
bias distribution that is 100% left-leaning does not yield the
left-leaning label. -/
theorem summary_label_unknown_counterexample :
    getSentimentLabel 0 (1/2) = "Unknown" ∧ (1/2 : ℚ) > 3/10 ∧
    getBiasLabel 0 ⟨10, 0, 0⟩ = "Unknown" ∧
    leftSharePercent ⟨10, 0, 0⟩ > rightSharePercent ⟨10, 0, 0⟩ + 20 := by
  refine ⟨by decide, by norm_num, by decide, ?_⟩
  rw [leftSharePercent, rightSharePercent]
  norm_num [biasTotal]

/-- Witness for C5 at concrete inputs: one analyzed article makes the
thresholds effective. -/
theorem summary_label_thresholds_witness :
    getSentimentLabel 1 (1/2) = "Mostly Positive" ∧
    getBiasLabel 2 ⟨9, 0, 1⟩ = "Left-Leaning" := by
  constructor
  · exact (summary_label_thresholds 1 (1/2) ⟨9, 0, 1⟩).2.1 (by decide) (by norm_num)
  · refine (summary_label_thresholds 2 (1/2) ⟨9, 0, 1⟩).2.2.2.2.2.2.2.1
      (by decide) (by decide) ?_ ?_
    · rw [centristSharePercent]
      norm_num [biasTotal]
    · rw [leftSharePercent, rightSharePercent]
      norm_num [biasTotal]

/-- C6.  In bias aggregation an article labeled "neutral" is counted
into the centrist bucket, so the centrist count equals the number of
articles labeled "centrist" plus those labeled "neutral" — both in
`localStats` (over the whole page) and in `getBiasStats` (over the
analyzed articles). -/
theorem bias_centrist_includes_neutral (al : ArticleList) :
    ((localStats al).biasDistribution.centrist =
      (al.items.filter fun a => a.political_bias_label == some "centrist").length +
      (al.items.filter fun a => a.political_bias_label == some "neutral").length) ∧
    ∀ bs, getBiasStats al = some bs →
      bs.political.centrist =
        ((al.items.filter fun a => a.last_analyzed_at.isSome).filter
            fun a => a.political_bias_label == some "centrist").length +
        ((al.items.filter fun a => a.last_analyzed_at.isSome).filter
            fun a => a.political_bias_label == some "neutral").length := by
  have hdisj : ∀ a : Article, ¬((a.political_bias_label == some "centrist") = true ∧
      (a.political_bias_label == some "neutral") = true) := by
    rintro a ⟨h1, h2⟩
    rw [beq_iff_eq] at h1 h2
    rw [h1] at h2
    simp at h2
  constructor
  · exact length_filter_or_disjoint al.items _ _ hdisj
  · intro bs hbs
    unfold getBiasStats at hbs
    by_cases hlen : al.items.length = 0
    · rw [if_pos hlen] at hbs
      exact absurd hbs (by simp)
    · rw [if_neg hlen] at hbs
      by_cases hana : (al.items.filter fun a => a.last_analyzed_at.isSome).length = 0
      · rw [if_pos hana] at hbs
        exact absurd hbs (by simp)
      · rw [if_neg hana] at hbs
        have hbs' := Option.some.inj hbs
        rw [← hbs']
        exact length_filter_or_disjoint _ _ _ hdisj

/-- An article list with a single analyzed, "neutral"-labeled article,
used to witness C6. -/
def neutralArticleList : ArticleList :=
  { items := [mkArticle none (some "neutral") none none (some 5)],
    total := 1, page := 1, size := 10, pages := 1 }

/-- Witness for C6: on the single-article page whose article is labeled
"neutral", `getBiasStats` counts it in the centrist bucket. -/
theorem bias_centrist_includes_neutral_witness :
    getBiasStats neutralArticleList =
      some { analyzed := 1, political := ⟨0, 0, 1⟩, sensationalism := ⟨0, 0, 0⟩ } ∧
    (1 : Nat) =
      ((neutralArticleList.items.filter fun a => a.last_analyzed_at.isSome).filter
          fun a => a.political_bias_label == some "centrist").length +
      ((neutralArticleList.items.filter fun a => a.last_analyzed_at.isSome).filter
          fun a => a.political_bias_label == some "neutral").length :=
  ⟨by decide, (bias_centrist_includes_neutral neutralArticleList).2
    { analyzed := 1, political := ⟨0, 0, 1⟩, sensationalism := ⟨0, 0, 0⟩ } (by decide)⟩

/-- The pagination envelope of an empty article list. -/
def emptyArticleList : ArticleList :=
  { items := [], total := 0, page := 1, size := 10, pages := 0 }

/-- C7.  The aggregate of the empty article list has total 0, analyzed
0, all per-label counts 0 and sources count 0, and the analyzed
percentage of any aggregate with zero total is the sentinel 0 (the
guard branch, no division performed). -/
theorem aggregate_empty_and_percentage_guard :
    (localStats emptyArticleList).totalArticles = 0 ∧
    (localStats emptyArticleList).analyzedArticles = 0 ∧
    (localStats emptyArticleList).sentimentDistribution = ⟨0, 0, 0⟩ ∧
    (localStats emptyArticleList).biasDistribution = ⟨0, 0, 0⟩ ∧
    (localStats emptyArticleList).sourcesCount = 0 ∧
    analysisPercentage (localStats emptyArticleList) = 0 ∧
    ∀ stats : TopicStatsData, stats.totalArticles = 0 → analysisPercentage stats = 0 := by
  refine ⟨rfl, rfl, rfl, rfl, rfl, rfl, ?_⟩
  intro stats h
  simp [analysisPercentage, h]

/-- A nonzero aggregate with zero total, used to witness C7's guard. -/
def zeroTotalStats : TopicStatsData :=
  { totalArticles := 0, analyzedArticles := 7, averageSentiment := 0,
    sentimentDistribution := ⟨1, 2, 3⟩, biasDistribution := ⟨1, 1, 1⟩,
    sourcesCount := 2, sensationalismLevel := 0, timeRange := "30 days" }

/-- Witness for C7's guard at a concrete aggregate with zero total. -/
theorem aggregate_empty_and_percentage_guard_witness :
    analysisPercentage zeroTotalStats = 0 :=
  aggregate_empty_and_percentage_guard.2.2.2.2.2.2 zeroTotalStats rfl

/-- Conclusion of C4 at a starting state: the failing probe that reaches
the retry budget yields an unavailable, interval-free state from which no
probe ever fires again without a manual retry, and a manual retry from
any state resets the counter and re-enters checking with the interval
re-armed. -/
def UnavailableTerminalSpec (s : MonitorState) : Prop :=
  ∃ s', monitorStep s (MonitorEvent.probeResult false) = some s' ∧
    readinessStateOf s'.status = ReadinessState.unavailable ∧
    s'.status.message = unavailableMessage ∧
    s'.intervalActive = false ∧
    (∀ evs : List MonitorEvent, MonitorEvent.manualRetry ∉ evs → monitorRun s' evs = s') ∧
    (∀ t : MonitorState, ∃ t', monitorStep t MonitorEvent.manualRetry = some t' ∧
      t'.status.retryCount = 0 ∧ readinessStateOf t'.status = ReadinessState.checking ∧
      t'.intervalActive = true)

/-- C4.  From any live-interval state whose next failed probe reaches
`maxRetries` (40), the monitor becomes unavailable with the terminal
message, its interval is cleared, no further probe event is ever taken
absent a manual retry, and `retryHealthCheck` resets the counter to 0
and re-enters checking with polling restarted. -/
theorem monitor_unavailable_terminal_and_retry (s : MonitorState)
    (hact : s.intervalActive = true) (hcnt : maxRetries ≤ s.status.retryCount + 1) :
    UnavailableTerminalSpec s := by
  have hlt : ¬ (s.status.retryCount + 1 < maxRetries) := by omega
  have hup : performCheckUpdate false s.status =
      ({ isHealthy := false, isChecking := false, isSpinningUp := false,
         retryCount := s.status.retryCount + 1, message := unavailableMessage }, true) := by
    unfold performCheckUpdate
    simp [hlt, hcnt]
  refine ⟨{ status := (performCheckUpdate false s.status).1, intervalActive := false },
    ?_, ?_, ?_, rfl, ?_, ?_⟩
  · simp [monitorStep, hact, hup]
  · rw [hup]
    rfl
  · rw [hup]
  · exact monitorRun_no_retry _ rfl
  · intro t
    exact ⟨{ status := retryResetStatus, intervalActive := true }, rfl, rfl, rfl, rfl⟩

/-- A monitor state one failed probe away from the retry budget. -/
def nearLimitState : MonitorState :=
  { status := { isHealthy := false, isChecking := true, isSpinningUp := true,
                retryCount := 39, message := "Backend is starting up..." },
    intervalActive := true }

/-- Witness for C4 at the concrete state with 39 consecutive failures
and a live interval. -/
theorem monitor_unavailable_terminal_and_retry_witness :
    UnavailableTerminalSpec nearLimitState :=
  monitor_unavailable_terminal_and_retry nearLimitState rfl (by decide)

/-- C3 counterexample.  In probing (production) mode the mount effect
issues no probe at all: the claim that a probe is issued immediately on
creation fails. -/
theorem mount_issues_no_probe : (mountEffect true).probesIssued = 0 := rfl

/-- C3 (amended).  On creation in probing (production) mode the monitor
issues no probe: it only sets a spinning-up status and arms the fallback
timer.  The immediate probe with the bounded 10000 ms per-call timeout
(and the 5000 ms polling interval) is issued when the polling cycle is
started by `startHealthCheck`, which is reached only through the manual
retry operation. -/
theorem mount_no_probe_retry_probes :
    (mountEffect true).probesIssued = 0 ∧
    readinessStateOf (mountEffect true).status = ReadinessState.startingUp ∧
    (mountEffect true).fallbackTimerSet = true ∧
    startHealthCheckEffects.probesIssued = 1 ∧
    startHealthCheckEffects.probeTimeoutMs = 10000 ∧
    startHealthCheckEffects.intervalDelayMs = 5000 ∧
    startHealthCheckEffects.intervalSet = true := by
  refine ⟨rfl, ?_, rfl, rfl, rfl, rfl, rfl⟩
  rfl

/-- C10.  In production (probing) mode the mount effect arms a one-shot
65000 ms fallback timer; the monitor starts in the starting-up state
with no probe ever issued, the timer's firing installs the healthy
status unconditionally, and the mount cleanup cancels the timer. -/
theorem fallback_timer_optimistic_healthy :
    (mountEffect true).fallbackTimerSet = true ∧
    (mountEffect true).fallbackDelayMs = 65000 ∧
    readinessStateOf (mountEffect true).status = ReadinessState.startingUp ∧
    (mountEffect true).probesIssued = 0 ∧
    readinessStateOf fallbackFireStatus = ReadinessState.healthy ∧
    (mountCleanup (mountEffect true)).fallbackTimerSet = false := by
  exact ⟨rfl, rfl, rfl, rfl, rfl, rfl⟩
